import Mathlib

/-!
Shallow embedding of the document model of `meilizet` (src/src/document.rs):
the `Document` record, its custom context-dependent serializer, its
deserialization (the serde derive on the struct), the textual `Display`
rendering, the identity-assignment step of `Document::parse_file`, and the
legacy conversion `From<markdown_fm_doc::Document>`.

External crates used by the source (`unicode_width`, `serde_yaml`,
`frontmatter`, `crate::date`, `markdown_fm_doc`, `uuid_b64`) are not part of
`src/`; where their behaviour matters it is modelled explicitly and the
definition's doc comment says so.
-/

/-- The display-width of one character, as computed by the `unicode_width`
crate (UAX 11) which the source calls as `.width()`.  Control characters
(for which the crate's `UnicodeWidthChar::width` returns `None`, counted as
0 by `UnicodeWidthStr::width`) and the common zero-width ranges have width
0, the common wide CJK ranges width 2, everything else width 1.  Exact for
ASCII, which is all the concrete inputs used below need. -/
def charWidth (c : Char) : Nat :=
  if c.val < 0x20 ∨ (0x7F ≤ c.val ∧ c.val < 0xA0) then 0
  else if (0x300 ≤ c.val ∧ c.val ≤ 0x36F) ∨ (0x200B ≤ c.val ∧ c.val ≤ 0x200F) then 0
  else if (0x1100 ≤ c.val ∧ c.val ≤ 0x115F) ∨ (0x2E80 ≤ c.val ∧ c.val ≤ 0x9FFF)
      ∨ (0xAC00 ≤ c.val ∧ c.val ≤ 0xD7A3) ∨ (0xF900 ≤ c.val ∧ c.val ≤ 0xFAFF)
      ∨ (0xFF00 ≤ c.val ∧ c.val ≤ 0xFF60) then 2
  else 1

/-- `UnicodeWidthStr::width` on a string: the sum of the widths of its
characters. -/
def strWidth (s : String) : Nat :=
  (s.data.map charWidth).sum

/-- `SerializationType` from src/src/document.rs (lines 11-17). -/
inductive SerializationType where
  | Storage
  | Disk
  | Human
deriving DecidableEq, Repr

/-- `Default for SerializationType` (lines 19-23) returns `Storage`. -/
def SerializationType.default : SerializationType := .Storage

/-- `Document` from src/src/document.rs (lines 26-65), field for field and in
the source's order.  `Date` is epoch seconds (`crate::date` is not in src/;
the spec calls it "internally an epoch-seconds integer"), modelled as `Nat`;
`weight` and `views` are `i32` modelled as `Int`; `writes` is `u16` modelled
as `Nat` (the u16 range bound appears as a hypothesis where it matters). -/
structure Document where
  id : String
  parentid : String
  authors : List String
  body : String
  serialization_type : SerializationType
  date : Nat
  title : String
  background_img : String
  links : List String
  slug : String
  subtitle : String
  tags : List String
  weight : Int
  writes : Nat
  views : Int
  filename : String
deriving DecidableEq, Repr

/-- `Default for Document` (the `derive(Default)` on the struct): every field
at its default, `serialization_type` at `Storage`. -/
def defaultDocument : Document :=
  { id := "", parentid := "", authors := [], body := "",
    serialization_type := .Storage, date := 0, title := "",
    background_img := "", links := [], slug := "", subtitle := "",
    tags := [], weight := 0, writes := 0, views := 0, filename := "" }

/-- A YAML-ish value as exchanged with serde: scalars and sequences are all
the document schema uses. -/
inductive Yaml where
  | str : String → Yaml
  | nat : Nat → Yaml
  | int : Int → Yaml
  | list : List Yaml → Yaml

/-- Modelled from the spec: the `Display` form of a `Date`
(`format!("{}", &self.date)`, line 206; `crate::date` is not in src/).  The
exact text is not load-bearing for any claim; only that Disk mode emits the
date as a formatted string rather than the canonical value. -/
def formatDate (n : Nat) : String :=
  toString n

/-- The custom `Serialize for Document` (src/src/document.rs lines 184-231)
as the ordered list of (field name, value) pairs it emits.  `Human` emits a
zero-field record (line 195); otherwise the fields follow lines 199-228:
`title`; `subtitle` if its width is positive; `date` canonically for
`Storage` and as a formatted string otherwise; `tags`; `filename` for
`Storage` only; `authors`, `id`, `parentid`, `weight`, `writes`;
`background_img`, `links`, `slug` each gated on non-emptiness/width; `body`
for `Storage` only. -/
def serializeFields (d : Document) : List (String × Yaml) :=
  match d.serialization_type with
  | .Human => []
  | st =>
    [("title", Yaml.str d.title)]
    ++ (if strWidth d.subtitle > 0 then [("subtitle", Yaml.str d.subtitle)] else [])
    ++ (if st = .Storage then [("date", Yaml.nat d.date)]
        else [("date", Yaml.str (formatDate d.date))])
    ++ [("tags", Yaml.list (d.tags.map Yaml.str))]
    ++ (if st = .Storage then [("filename", Yaml.str d.filename)] else [])
    ++ [("authors", Yaml.list (d.authors.map Yaml.str)),
        ("id", Yaml.str d.id),
        ("parentid", Yaml.str d.parentid),
        ("weight", Yaml.int d.weight),
        ("writes", Yaml.nat d.writes)]
    ++ (if strWidth d.background_img > 0 then [("background_img", Yaml.str d.background_img)] else [])
    ++ (if d.links = [] then [] else [("links", Yaml.list (d.links.map Yaml.str))])
    ++ (if strWidth d.slug > 0 then [("slug", Yaml.str d.slug)] else [])
    ++ (if st = .Storage then [("body", Yaml.str d.body)] else [])

/-- The names of the fields a serialization emits, in order. -/
def fieldNames (d : Document) : List String :=
  (serializeFields d).map Prod.fst

/-- Rendering of one scalar value.  Modelled from the spec: `serde_yaml`
(not part of src/) renders the metadata block; the precise scalar text is
not load-bearing. -/
def yamlScalar : Yaml → String
  | .str s => s
  | .nat n => toString n
  | .int i => toString i
  | .list _ => ""

/-- Rendering of one value (sequences inline). -/
def yamlValueStr : Yaml → String
  | .list l => "[" ++ String.intercalate ", " (l.map yamlScalar) ++ "]"
  | v => yamlScalar v

/-- Modelled from the spec: `serde_yaml::to_string` (line 158, crate not in
src/) renders the serialized fields as a metadata block opened by a
`---` line, one `key: value` line per emitted field. -/
def renderYaml (fields : List (String × Yaml)) : String :=
  "---\n" ++ String.join (fields.map (fun kv => kv.1 ++ ": " ++ yamlValueStr kv.2 ++ "\n"))

/-- `fmt::Display for Document` (src/src/document.rs lines 153-162): `Human`
writes the body alone; every other mode writes the yaml of the document
(which respects `serialization_type`) followed by a literal `---` separator
line and the raw body (`write!(f, "{}---\n{}", yaml, self.body)`). -/
def render (d : Document) : String :=
  if d.serialization_type = SerializationType.Human then d.body
  else renderYaml (serializeFields d) ++ "---\n" ++ d.body

/-- Key lookup in a field list, first binding wins (serde matches each
metadata key against the struct's field names). -/
def lookupKey (k : String) : List (String × Yaml) → Option Yaml
  | [] => none
  | (k1, v) :: rest => if k1 = k then some v else lookupKey k rest

/-- A scalar string value, as serde expects for a `String` field; any other
shape is a type error. -/
def asString : Yaml → Option String
  | .str s => some s
  | _ => none

/-- A sequence whose elements are all strings, as serde expects for a
`Vec<String>` field; any non-string element is a type error. -/
def asStrList : List Yaml → Option (List String)
  | [] => some []
  | .str s :: rest => (asStrList rest).map (s :: ·)
  | _ => none

/-- `string_or_list_string` (src/src/document.rs lines 121-151): `visit_str`
wraps a single string into a one-element list, `visit_seq` delegates to the
ordinary `Vec<String>` deserialization, and every other shape is rejected
by the visitor ("string or list of strings"). -/
def string_or_list_string : Yaml → Option (List String)
  | .str s => some [s]
  | .list l => asStrList l
  | _ => none

/-- Split a character list at every occurrence of one separator character
(the pieces do not contain the separator). -/
def splitOnChar (c : Char) : List Char → List (List Char)
  | [] => [[]]
  | x :: rest =>
    if x = c then [] :: splitOnChar c rest
    else
      match splitOnChar c rest with
      | [] => [[x]]
      | h :: t => (x :: h) :: t

/-- The lines of a string. -/
def strLines (s : String) : List String :=
  (splitOnChar (Char.ofNat 10) s.data).map String.mk

/-- The value of a non-empty all-digit character list, `none` otherwise. -/
def digitsVal (acc : Nat) : List Char → Option Nat
  | [] => some acc
  | c :: rest => if c.isDigit then digitsVal (acc * 10 + (c.toNat - 48)) rest else none

/-- Decimal reading of a string. -/
def decToNat (s : String) : Option Nat :=
  match s.data with
  | [] => none
  | l => digitsVal 0 l

/-- Modelled from the spec: the date normalizer of `crate::date` (not in
src/).  "accepts the metadata's date field in any of several accepted
textual encodings and produces one canonical point-in-time value (internally
an epoch-seconds integer)".  One concrete accepted encoding is modelled:
`YYYY-MM-DD`, mapped to the epoch seconds of that day's midnight. -/
def isLeap (y : Nat) : Bool :=
  y % 4 = 0 && (y % 100 ≠ 0 || y % 400 = 0)

/-- Cumulative day count before a given month (1-12). -/
def daysBeforeMonth (leap : Bool) (m : Nat) : Nat :=
  (List.take (m - 1) [31, if leap then 29 else 28, 31, 30, 31, 30, 31, 31, 30, 31, 30, 31]).sum

/-- Days from 1970-01-01 to year `y`, month `m`, day `d` (all 1-based). -/
def epochDays (y m d : Nat) : Nat :=
  (List.range (y - 1970)).foldl (fun acc i => acc + (if isLeap (1970 + i) then 366 else 365)) 0
    + daysBeforeMonth (isLeap y) m + (d - 1)

/-- Modelled from the spec: parse a `YYYY-MM-DD` date text into canonical
epoch seconds; anything else is a `DateParseError` (`none`). -/
def parseDateStr (s : String) : Option Nat :=
  match (splitOnChar '-' s.data).map String.mk with
  | [ys, ms, ds] =>
    match decToNat ys, decToNat ms, decToNat ds with
    | some y, some m, some d =>
      if 1970 ≤ y ∧ 1 ≤ m ∧ m ≤ 12 ∧ 1 ≤ d ∧ d ≤ 31 then
        some (epochDays y m d * 86400)
      else none
    | _, _, _ => none
  | _ => none

/-- Modelled from the spec: `date_deserializer` of `crate::date` (not in
src/) accepts the canonical epoch-seconds value back, and any of the
accepted textual encodings. -/
def dateFromYaml : Yaml → Option Nat
  | .nat n => some n
  | .str s => parseDateStr s
  | _ => none

/-- A defaulted `String` field (`#[serde(default)]`): absent means `""`,
present must be a scalar string. -/
def fieldStrD (fields : List (String × Yaml)) (k : String) : Option String :=
  match lookupKey k fields with
  | none => some ""
  | some v => asString v

/-- A defaulted `Vec<String>` field: absent means `[]`, present must be a
sequence of strings. -/
def fieldStrListD (fields : List (String × Yaml)) (k : String) : Option (List String) :=
  match lookupKey k fields with
  | none => some []
  | some (.list l) => asStrList l
  | some _ => none

/-- A defaulted `i32` field: absent means `0`, present must be a number. -/
def fieldIntD (fields : List (String × Yaml)) (k : String) : Option Int :=
  match lookupKey k fields with
  | none => some 0
  | some (.int i) => some i
  | some (.nat n) => some (n : Int)
  | some _ => none

/-- The serde `Deserialize` derive on `Document` (src/src/document.rs lines
26-65), field by field: `id`, `parentid`, `body`, `background_img`, `slug`,
`subtitle`, `filename` are defaulted strings; `authors` is a defaulted
`Vec<String>` accepted under `authors` or the alias `author` (the alias
renames the key only — the value must still be a sequence); `date` is
required and goes through `date_deserializer`; `title` is required;
`tags` is defaulted, goes through `string_or_list_string` and is accepted
under `tags` or the alias `tag`; `weight` and `views` are defaulted `i32`;
`writes` is a defaulted `u16` (hence the range check);
`serialization_type` is `#[serde(skip)]` and takes its default `Storage`. -/
def deserializeFields (fields : List (String × Yaml)) : Option Document := do
  let id ← fieldStrD fields "id"
  let parentid ← fieldStrD fields "parentid"
  let authors ←
    match (lookupKey "authors" fields).orElse (fun _ => lookupKey "author" fields) with
    | none => some []
    | some (.list l) => asStrList l
    | some _ => none
  let body ← fieldStrD fields "body"
  let date ←
    match lookupKey "date" fields with
    | none => none
    | some v => dateFromYaml v
  let title ←
    match lookupKey "title" fields with
    | none => none
    | some v => asString v
  let background_img ← fieldStrD fields "background_img"
  let links ← fieldStrListD fields "links"
  let slug ← fieldStrD fields "slug"
  let subtitle ← fieldStrD fields "subtitle"
  let tags ←
    match (lookupKey "tags" fields).orElse (fun _ => lookupKey "tag" fields) with
    | none => some []
    | some v => string_or_list_string v
  let weight ← fieldIntD fields "weight"
  let writes ←
    match lookupKey "writes" fields with
    | none => some 0
    | some (.nat n) => if n < 65536 then some n else none
    | some _ => none
  let views ← fieldIntD fields "views"
  let filename ← fieldStrD fields "filename"
  some { id := id, parentid := parentid, authors := authors, body := body,
         serialization_type := .Storage, date := date, title := title,
         background_img := background_img, links := links, slug := slug,
         subtitle := subtitle, tags := tags, weight := weight,
         writes := writes, views := views, filename := filename }

/-- Modelled from the spec: `frontmatter::parse_and_find_content` (crate not
in src/).  "locate a delimited metadata block at the start of the text and
return (metadata_text, body_text), where body_text is everything after the
block, with the block itself removed"; `none` when the expected delimiter
structure is absent.  An optional opening fence line is skipped, the block
ends at the first `---` line, and the spec's scenario
"title: Hello\ntags: foo\n---\nBody text" splits into the two lines of
metadata and the body `Body text`. -/
def splitFrontmatter (s : String) : Option (String × String) :=
  let lines := strLines s
  let lines1 := if lines.head? = some "---" then lines.tail else lines
  let metaLines := lines1.takeWhile (fun l => l ≠ "---")
  match lines1.dropWhile (fun l => l ≠ "---") with
  | [] => none
  | _ :: bodyLines =>
    some (String.intercalate "\n" metaLines, String.intercalate "\n" bodyLines)

/-- Split a character list at every occurrence of the two-character
separator `, `. -/
def splitCommaSp : List Char → List (List Char)
  | [] => [[]]
  | ',' :: ' ' :: rest => [] :: splitCommaSp rest
  | x :: rest =>
    match splitCommaSp rest with
    | [] => [[x]]
    | h :: t => (x :: h) :: t

/-- Modelled from the spec: one scalar-or-sequence metadata value as the
yaml crates (not in src/) read it — an inline `[a, b]` sequence, a number,
or a plain string. -/
def parseYamlValue (v : String) : Yaml :=
  match v.data with
  | '[' :: rest =>
    if rest.getLast? = some ']' then
      Yaml.list ((splitCommaSp rest.dropLast).map (fun l => Yaml.str (String.mk l)))
    else Yaml.str v
  | l =>
    match digitsVal 0 l with
    | some n => if l = [] then Yaml.str v else Yaml.nat n
    | none => Yaml.str v

/-- Split a line at the first occurrence of `: ` into key and value. -/
def splitKeyVal : List Char → Option (List Char × List Char)
  | [] => none
  | ':' :: ' ' :: rest => some ([], rest)
  | x :: rest => (splitKeyVal rest).map (fun p => (x :: p.1, p.2))

/-- Modelled from the spec: one `key: value` metadata line. -/
def parseYamlLine (l : String) : Option (String × Yaml) :=
  (splitKeyVal l.data).map (fun p => (String.mk p.1, parseYamlValue (String.mk p.2)))

/-- Modelled from the spec: the metadata block as a key-to-value mapping
(the source round-trips the parsed yaml through `YamlEmitter` and
`serde_yaml::from_str`, lines 86-101; the net effect is to hand the block's
mapping to the serde derive). -/
def parseYamlMeta (m : String) : List (String × Yaml) :=
  (strLines m).filterMap parseYamlLine

/-- The identity-assignment step of `Document::parse_file` (src/src/document.rs
lines 104-108): when the parsed `id` has display width 0 a fresh identifier
(`UuidB64::new()`, modelled as the `uuid` argument) is assigned to both `id`
and `parentid`; otherwise nothing changes. -/
def assignIdentity (uuid : String) (doc : Document) : Document :=
  if strWidth doc.id = 0 then { doc with id := uuid, parentid := uuid } else doc

/-- The two failure modes of `Document::parse_file`: no metadata block found
(lines 112-115), or the metadata does not deserialize into the schema
(lines 94-100). -/
inductive ParseFileError where
  | noFrontmatter
  | yamlError
deriving DecidableEq, Repr

/-- `Document::parse_file` (src/src/document.rs lines 79-117) on the file's
text: split the frontmatter (`none` becomes the "Failed to process file"
error), deserialize the metadata into a `Document`, then set `filename`
from the path's file name (the `filename` argument), set `body` to the
content after the block, and run the identity-assignment step.  File
reading itself is I/O and stays outside the model; `uuid` stands for the
`UuidB64::new()` the step would draw. -/
def parseFile (uuid filename text : String) : Except ParseFileError Document :=
  match splitFrontmatter text with
  | none => .error .noFrontmatter
  | some (meta, content) =>
    match deserializeFields (parseYamlMeta meta) with
    | none => .error .yamlError
    | some doc =>
      .ok (assignIdentity uuid { doc with filename := filename, body := content })

/-- The legacy `markdown_fm_doc::Document` (crate not in src/), modelled
from the spec: "an older single-author record (single author string, flat
tag list, date as free text, no identity fields)". -/
structure MdfmDoc where
  author : String
  body : String
  date : String
  tags : List String
  title : String
  subtitle : String
  filename : String

/-- `From<markdown_fm_doc::Document> for Document` (src/src/document.rs lines
164-181): a fresh identifier (`uuid`) goes to both `id` and `parentid`, the
single author is wrapped into a one-element list, the free-text date goes
through the date normalizer (`Date::from_str(&item.date).unwrap()` — the
unwrap's panic on an unparsable date is modelled as `none`), `writes` is 1,
`tags`, `title`, `subtitle`, `body` and `filename` are copied through, and
every other field takes its default. -/
def fromLegacy (uuid : String) (item : MdfmDoc) : Option Document :=
  match parseDateStr item.date with
  | none => none
  | some n =>
    some { defaultDocument with
           id := uuid, parentid := uuid, authors := [item.author],
           body := item.body, date := n, writes := 1, tags := item.tags,
           title := item.title, subtitle := item.subtitle,
           filename := item.filename }

/-- The four optional field names whose emission is additionally gated on
content (lines 200-202, 217-225). -/
def optionalFieldNames : List String :=
  ["subtitle", "background_img", "links", "slug"]

/-- The field names every serialization of a given mode emits, independent
of the document's contents. -/
def mandatoryFieldNames : SerializationType → List String
  | .Storage => ["title", "date", "tags", "filename", "authors", "id", "parentid",
                 "weight", "writes", "body"]
  | .Disk => ["title", "date", "tags", "authors", "id", "parentid", "weight", "writes"]
  | .Human => []

/-- Concrete documents used by the closed witness and counterexample
statements below. -/
def diskWitnessDoc : Document :=
  { defaultDocument with
    serialization_type := .Disk, title := "T", filename := "f.md", body := "B" }

def humanWitnessDoc : Document :=
  { defaultDocument with serialization_type := .Human, body := "B" }

def parsedDocC1 : Document :=
  { defaultDocument with
    id := "U", parentid := "U", title := "T", date := 3,
    body := "Body text", filename := "f.md" }

def legacyItemC1 : MdfmDoc :=
  ⟨"Alice", "b", "2021-01-02", ["a"], "T", "", "f.md"⟩

def legacyDocC1 : Document :=
  { defaultDocument with
    id := "U", parentid := "U", authors := ["Alice"], body := "b",
    date := 1609545600, writes := 1, tags := ["a"], title := "T",
    filename := "f.md" }

def viewsDocC3 : Document :=
  { defaultDocument with
    id := "I", parentid := "P", title := "T", views := 5 }

def rtDocC3 : Document :=
  { defaultDocument with
    id := "I", parentid := "P", title := "T", subtitle := "Sub", date := 9,
    tags := ["a"], authors := ["Al"], body := "B", filename := "f.md",
    writes := 2, weight := -1 }

def diskDocC4 : Document :=
  { defaultDocument with
    serialization_type := .Disk, id := "I", parentid := "P", title := "T",
    body := "BODYTEXT" }

def storageDocC4 : Document :=
  { defaultDocument with
    id := "I", parentid := "P", title := "T", body := "B" }

def zwDocC8 : Document :=
  { defaultDocument with
    title := "T", subtitle := "\x07" }

def subDocC8 : Document :=
  { defaultDocument with
    serialization_type := .Disk, title := "T", subtitle := "Sub" }

def parsedDocC9 : Document :=
  { defaultDocument with
    id := "V", parentid := "V", title := "T", date := 3,
    body := "Body text", filename := "g.md" }

/-! ## Helper lemmas -/

/-- A sequence of string values deserializes to exactly those strings. -/
theorem asStrList_map_str (xs : List String) : asStrList (xs.map Yaml.str) = some xs := by
  induction xs with
  | nil => rfl
  | cons x rest ih => simp [asStrList, ih]

/-- A string of non-zero display width is non-empty. -/
theorem ne_empty_of_strWidth_ne (s : String) (h : strWidth s ≠ 0) : s ≠ "" :=
  fun he => h (he ▸ rfl)

/-- The identity-assignment step leaves a non-empty id behind whenever the
generated identifier is non-empty. -/
theorem assignIdentity_id_ne (uuid : String) (p : Document) (hu : uuid ≠ "") :
    (assignIdentity uuid p).id ≠ "" := by
  by_cases h : strWidth p.id = 0
  · simpa [assignIdentity, h] using hu
  · simpa [assignIdentity, h] using ne_empty_of_strWidth_ne p.id h

/-- The identity-assignment step never touches the body. -/
theorem assignIdentity_body (u : String) (p : Document) :
    (assignIdentity u p).body = p.body := by
  unfold assignIdentity
  split <;> rfl

/-! ## Claim C1 -/

/-- C1, counterexample: the claim that id and parentid are always non-empty
after construction fails on the code.  A file whose frontmatter carries an
id but no parentid parses into a Document whose parentid is the empty
string: `parse_file` (lines 104-108) regenerates identity only when the
parsed id has width 0, and here the id `x` is present. -/
theorem parse_file_parentid_can_be_empty :
    (parseFile "U" "f.md" "---\ntitle: T\ndate: 7\nid: x\n---\nB").map Document.parentid
      = Except.ok "" ∧
    (parseFile "U" "f.md" "---\ntitle: T\ndate: 7\nid: x\n---\nB").map Document.id
      = Except.ok "x" ∧
    "" ≠ "x" :=
  ⟨rfl, rfl, by decide⟩

/-- C1, amended: for a non-empty generated identifier, the document produced
by `parse_file` always has a non-empty id; when the parsed id had display
width 0 the fresh identifier goes to both id and parentid (so both are
non-empty and equal), and otherwise the identity-assignment step changes
nothing — in particular parentid keeps its parsed value, which may be
empty.  The legacy conversion always sets id = parentid = the fresh
identifier, so there both are non-empty. -/
theorem identity_after_parse_and_legacy (uuid fn txt : String) (parsed : Document)
    (item : MdfmDoc) (doc : Document) (hu : uuid ≠ "") :
    (assignIdentity uuid parsed).id ≠ "" ∧
    (strWidth parsed.id = 0 →
      assignIdentity uuid parsed = { parsed with id := uuid, parentid := uuid }) ∧
    (strWidth parsed.id ≠ 0 → assignIdentity uuid parsed = parsed) ∧
    (parseFile uuid fn txt = .ok doc → doc.id ≠ "") ∧
    (∀ d2, fromLegacy uuid item = some d2 →
      d2.id = uuid ∧ d2.parentid = uuid ∧ d2.id ≠ "") := by
  refine ⟨assignIdentity_id_ne uuid parsed hu, ?_, ?_, ?_, ?_⟩
  · intro h
    simp [assignIdentity, h]
  · intro h
    simp [assignIdentity, h]
  · intro h
    unfold parseFile at h
    split at h
    · simp at h
    · split at h
      · simp at h
      · injection h with h
        subst h
        exact assignIdentity_id_ne _ _ hu
  · intro d2 h
    unfold fromLegacy at h
    split at h
    · simp at h
    · injection h with h
      subst h
      exact ⟨rfl, rfl, hu⟩

/-- C1, witness: the amended theorem applied at concrete inputs. -/
theorem identity_after_parse_and_legacy_witness :
    (assignIdentity "U" defaultDocument).id ≠ "" ∧
    parsedDocC1.id ≠ "" ∧
    (legacyDocC1.id = "U" ∧ legacyDocC1.parentid = "U" ∧ legacyDocC1.id ≠ "") :=
  ⟨(identity_after_parse_and_legacy "U" "f.md" "---\ntitle: T\ndate: 3\n---\nBody text"
      defaultDocument legacyItemC1 parsedDocC1 (by decide)).1,
   (identity_after_parse_and_legacy "U" "f.md" "---\ntitle: T\ndate: 3\n---\nBody text"
      defaultDocument legacyItemC1 parsedDocC1 (by decide)).2.2.2.1 rfl,
   (identity_after_parse_and_legacy "U" "f.md" "---\ntitle: T\ndate: 3\n---\nBody text"
      defaultDocument legacyItemC1 parsedDocC1 (by decide)).2.2.2.2 legacyDocC1 rfl⟩

/-! ## Claim C2 -/

/-- C2: serializing in Disk mode never emits the `filename` field or the
`body` field, and the Human-mode textual output is exactly the document's
body string with nothing else. -/
theorem disk_omits_filename_body_and_human_is_body (d : Document) :
    (d.serialization_type = .Disk →
      "filename" ∉ fieldNames d ∧ "body" ∉ fieldNames d) ∧
    (d.serialization_type = .Human → render d = d.body) := by
  constructor
  · intro h
    by_cases h1 : strWidth d.subtitle > 0 <;> by_cases h2 : strWidth d.background_img > 0 <;>
      by_cases h3 : d.links = [] <;> by_cases h4 : strWidth d.slug > 0 <;>
      simp [fieldNames, serializeFields, h, h1, h2, h3, h4]
  · intro h
    simp [render, h]

/-- C2, witness: the theorem applied at a concrete Disk document and a
concrete Human document. -/
theorem disk_omits_filename_body_and_human_is_body_witness :
    ("filename" ∉ fieldNames diskWitnessDoc ∧ "body" ∉ fieldNames diskWitnessDoc) ∧
    render humanWitnessDoc = humanWitnessDoc.body :=
  ⟨(disk_omits_filename_body_and_human_is_body diskWitnessDoc).1 rfl,
   (disk_omits_filename_body_and_human_is_body humanWitnessDoc).2 rfl⟩

/-! ## Claim C3 -/

/-- C3, counterexample: the Storage round trip is not the identity on every
non-identity field.  `views` is never serialized (lines 199-228 emit no
`views` field), so a document with `views = 5` comes back with `views = 0`
even though its id and parentid round-trip unchanged. -/
theorem storage_roundtrip_drops_views :
    viewsDocC3.serialization_type = .Storage ∧
    viewsDocC3.views = 5 ∧
    (deserializeFields (serializeFields viewsDocC3)).map Document.views = some 0 ∧
    (deserializeFields (serializeFields viewsDocC3)).map Document.id = some viewsDocC3.id ∧
    (deserializeFields (serializeFields viewsDocC3)).map Document.parentid
      = some viewsDocC3.parentid :=
  ⟨rfl, rfl, rfl, rfl, rfl⟩

/-- C3, amended: serializing a Storage-mode Document and deserializing the
result yields a Document equal to the original in every field except
`views`, which is not emitted and resets to its default 0, and the optional
string fields of display width 0, which are omitted and reset to the empty
string; id and parentid (and everything else) are carried through
unchanged. -/
theorem storage_roundtrip_amended (d : Document)
    (hst : d.serialization_type = .Storage) (hw : d.writes < 65536) :
    deserializeFields (serializeFields d) = some { d with
      serialization_type := .Storage,
      views := 0,
      subtitle := if strWidth d.subtitle > 0 then d.subtitle else "",
      background_img := if strWidth d.background_img > 0 then d.background_img else "",
      slug := if strWidth d.slug > 0 then d.slug else "" } := by
  by_cases h1 : strWidth d.subtitle > 0 <;> by_cases h2 : strWidth d.background_img > 0 <;>
    by_cases h3 : d.links = [] <;> by_cases h4 : strWidth d.slug > 0 <;>
    simp [serializeFields, deserializeFields, lookupKey, fieldStrD, fieldStrListD,
      fieldIntD, asString, dateFromYaml, string_or_list_string, asStrList_map_str,
      hst, hw, h1, h2, h3, h4, Option.orElse]

/-- C3, witness: the amended round trip at a concrete document with every
ordinary field populated. -/
theorem storage_roundtrip_amended_witness :
    deserializeFields (serializeFields rtDocC3) = some { rtDocC3 with
      serialization_type := .Storage,
      views := 0,
      subtitle := if strWidth rtDocC3.subtitle > 0 then rtDocC3.subtitle else "",
      background_img := if strWidth rtDocC3.background_img > 0 then rtDocC3.background_img else "",
      slug := if strWidth rtDocC3.slug > 0 then rtDocC3.slug else "" } :=
  storage_roundtrip_amended rtDocC3 rfl (by decide)

/-! ## Claim C4 -/

/-- C4, counterexample: the Disk textual rendering does contain the body.
The Display implementation (lines 153-162) branches only on Human: for a
Disk document it writes the metadata block followed by the separator line
and the raw body, so the rendering ends with the (non-empty) body and is
not the metadata block alone. -/
theorem disk_render_contains_body :
    diskDocC4.serialization_type = .Disk ∧
    diskDocC4.body ≠ "" ∧
    diskDocC4.body.data.isSuffixOf (render diskDocC4).data = true ∧
    render diskDocC4 ≠ renderYaml (serializeFields diskDocC4) := by
  refine ⟨rfl, by decide, by decide, by decide⟩

/-- C4, amended: in the textual rendering, a Document in Storage or Disk
mode is rendered as the structured metadata block of its mode followed by a
literal separator line and the raw body; the two modes differ only in the
metadata block (the Disk block omits the filename and body fields). -/
theorem render_storage_disk_amended (d : Document)
    (h : d.serialization_type = .Storage ∨ d.serialization_type = .Disk) :
    render d = renderYaml (serializeFields d) ++ "---\n" ++ d.body := by
  rcases h with h | h <;> simp [render, h]

/-- C4, witness: the amended rendering at a concrete Storage document. -/
theorem render_storage_disk_amended_witness :
    render storageDocC4
      = renderYaml (serializeFields storageDocC4) ++ "---\n" ++ storageDocC4.body :=
  render_storage_disk_amended storageDocC4 (Or.inl rfl)

/-! ## Claim C5 -/

/-- C5: tag normalization wraps a single scalar string into a one-element
list and is the identity on a list of strings, and the field is accepted
under the canonical name `tags` as well as the singular alias `tag`. -/
theorem tag_normalization_scalar_and_list (x t : String) (xs : List String) (n : Nat) :
    string_or_list_string (Yaml.str x) = some [x] ∧
    string_or_list_string (Yaml.list (xs.map Yaml.str)) = some xs ∧
    (deserializeFields [("title", Yaml.str t), ("date", Yaml.nat n),
        ("tags", Yaml.list (xs.map Yaml.str))]).map Document.tags = some xs ∧
    (deserializeFields [("title", Yaml.str t), ("date", Yaml.nat n),
        ("tag", Yaml.str x)]).map Document.tags = some [x] := by
  refine ⟨rfl, ?_, ?_, ?_⟩ <;>
    simp [deserializeFields, lookupKey, fieldStrD, fieldStrListD, fieldIntD, asString,
      dateFromYaml, string_or_list_string, asStrList_map_str, Option.orElse]

/-! ## Claim C6 -/

/-- C6, counterexample: a scalar string under the singular alias `author`
is rejected, not wrapped.  The alias on the `authors` field renames the key
only; the value is still deserialized as a `Vec<String>`, and a scalar is a
type error. -/
theorem author_scalar_rejected :
    deserializeFields [("title", Yaml.str "T"), ("date", Yaml.nat 0),
      ("author", Yaml.str "Alice")] = none := rfl

/-- C6, amended: the author field may be given in singular (`author`) or
plural (`authors`) form, but in both forms the value must be a list of
strings; a singular-form scalar string value fails deserialization instead
of being treated as a one-element list. -/
theorem author_alias_list_amended (t a : String) (n : Nat) :
    (deserializeFields [("title", Yaml.str t), ("date", Yaml.nat n),
        ("author", Yaml.list [Yaml.str a])]).map Document.authors = some [a] ∧
    (deserializeFields [("title", Yaml.str t), ("date", Yaml.nat n),
        ("authors", Yaml.list [Yaml.str a])]).map Document.authors = some [a] ∧
    deserializeFields [("title", Yaml.str t), ("date", Yaml.nat n),
      ("author", Yaml.str a)] = none := by
  refine ⟨?_, ?_, ?_⟩ <;>
    simp [deserializeFields, lookupKey, fieldStrD, fieldStrListD, fieldIntD, asString,
      asStrList, dateFromYaml, string_or_list_string, Option.orElse]

/-! ## Claim C7 -/

/-- C7: the legacy conversion wraps the single author into a one-element
list, parses the free-text date through the date normalizer, assigns the
freshly generated identifier to both id and parentid, sets writes to 1,
copies title, subtitle, tags, body and filename through unchanged, and
leaves every other field at its default. -/
theorem legacy_conversion_fields (uuid : String) (item : MdfmDoc) (n : Nat)
    (h : parseDateStr item.date = some n) :
    fromLegacy uuid item = some { defaultDocument with
      id := uuid, parentid := uuid, authors := [item.author],
      body := item.body, date := n, writes := 1, tags := item.tags,
      title := item.title, subtitle := item.subtitle,
      filename := item.filename } := by
  simp [fromLegacy, h]

/-- C7, witness: the spec's scenario — author "Alice", date "2021-01-02" —
yields authors = ["Alice"], writes = 1 and id = parentid = the fresh
identifier. -/
theorem legacy_conversion_fields_witness :
    fromLegacy "U" ⟨"Alice", "b", "2021-01-02", ["a", "b"], "T", "S", "f.md"⟩
      = some { defaultDocument with
        id := "U", parentid := "U", authors := ["Alice"], body := "b",
        date := 1609545600, writes := 1, tags := ["a", "b"], title := "T",
        subtitle := "S", filename := "f.md" } :=
  legacy_conversion_fields "U" _ 1609545600 (by decide)

/-! ## Claim C8 -/

/-- C8, counterexample: emission of the optional fields is not gated on
non-emptiness.  A subtitle consisting of one control character (display
width 0) is non-empty, yet a Storage serialization omits the subtitle
field, because the code gates on `.width() > 0`. -/
theorem subtitle_width_gate_counterexample :
    zwDocC8.subtitle ≠ "" ∧
    zwDocC8.serialization_type = .Storage ∧
    "subtitle" ∉ fieldNames zwDocC8 := by
  refine ⟨by decide, rfl, by decide⟩

/-- C8, amended: in Storage and Disk modes, each optional string field
(subtitle, background_img, slug) is emitted iff its unicode display width
is positive and `links` is emitted iff the list is non-empty, and after
removing those four names the emitted field names are a function of the
mode alone.  For ordinary printable text positive width coincides with
non-emptiness, so the spec's subtitle scenario holds. -/
theorem emitted_fields_by_mode_amended (d : Document)
    (h : d.serialization_type = .Storage ∨ d.serialization_type = .Disk) :
    ("subtitle" ∈ fieldNames d ↔ strWidth d.subtitle > 0) ∧
    ("background_img" ∈ fieldNames d ↔ strWidth d.background_img > 0) ∧
    ("links" ∈ fieldNames d ↔ d.links ≠ []) ∧
    ("slug" ∈ fieldNames d ↔ strWidth d.slug > 0) ∧
    (fieldNames d).filter (fun k => !(optionalFieldNames.contains k))
      = mandatoryFieldNames d.serialization_type := by
  rcases h with h | h <;>
    by_cases h1 : strWidth d.subtitle > 0 <;> by_cases h2 : strWidth d.background_img > 0 <;>
    by_cases h3 : d.links = [] <;> by_cases h4 : strWidth d.slug > 0 <;>
    simp [fieldNames, serializeFields, mandatoryFieldNames, optionalFieldNames,
      h, h1, h2, h3, h4, List.filter]

/-- C8, witness: the amended theorem at a concrete Disk document with a
printable non-empty subtitle (which is therefore emitted). -/
theorem emitted_fields_by_mode_amended_witness :
    ("subtitle" ∈ fieldNames subDocC8 ↔ strWidth subDocC8.subtitle > 0) ∧
    ("background_img" ∈ fieldNames subDocC8 ↔ strWidth subDocC8.background_img > 0) ∧
    ("links" ∈ fieldNames subDocC8 ↔ subDocC8.links ≠ []) ∧
    ("slug" ∈ fieldNames subDocC8 ↔ strWidth subDocC8.slug > 0) ∧
    (fieldNames subDocC8).filter (fun k => !(optionalFieldNames.contains k))
      = mandatoryFieldNames subDocC8.serialization_type :=
  emitted_fields_by_mode_amended subDocC8 (Or.inr rfl)

/-! ## Claim C9 -/

/-- C9: when the frontmatter delimiter structure is absent, `parse_file`
returns the no-metadata parse error instead of a Document; when a metadata
block is found, every Document `parse_file` returns has as its body exactly
the text after the block, with the block removed. -/
theorem parse_file_error_and_body (uuid fn txt : String) :
    (splitFrontmatter txt = none → parseFile uuid fn txt = .error .noFrontmatter) ∧
    (∀ meta body doc, splitFrontmatter txt = some (meta, body) →
      parseFile uuid fn txt = .ok doc → doc.body = body) := by
  constructor
  · intro h
    simp [parseFile, h]
  · intro meta body doc hs hp
    simp only [parseFile, hs] at hp
    split at hp
    · simp at hp
    · injection hp with hp
      subst hp
      simp [assignIdentity_body]

/-- C9, witness: a delimiterless text produces the parse error, and a
concrete parse with a metadata block returns the text after the block as
the body. -/
theorem parse_file_error_and_body_witness :
    parseFile "V" "g.md" "plain text with no delimiter" = .error .noFrontmatter ∧
    parsedDocC9.body = "Body text" :=
  ⟨(parse_file_error_and_body "V" "g.md" "plain text with no delimiter").1 rfl,
   (parse_file_error_and_body "V" "g.md" "---\ntitle: T\ndate: 3\n---\nBody text").2
     "title: T\ndate: 3" "Body text" parsedDocC9 rfl rfl⟩

/-! ## Claim C10 -/

/-- C10: for a Human-mode Document the structured serializer emits a record
with zero fields — neither metadata nor body; the body text comes only from
the separate textual rendering. -/
theorem human_serialization_empty (d : Document) (h : d.serialization_type = .Human) :
    serializeFields d = [] := by
  simp [serializeFields, h]

/-- C10, witness: the theorem at a concrete Human document with a non-empty
body. -/
theorem human_serialization_empty_witness :
    serializeFields humanWitnessDoc = [] :=
  human_serialization_empty humanWitnessDoc rfl
